import Mathlib

/-!
Verification development for the AdaptiveCare hospital patient-flow system
(React/TypeScript presentation layer plus the coordination-core design).

The presentation-layer functions are shallowly embedded from the TypeScript
source (`types/hospital.ts`, `display-utils.ts`, `AppLayout.tsx`,
`useDecisions.ts`, `useCapacity.ts`, `CapacityCard.tsx`).  Numbers that the
source manipulates as JS numbers are embedded as rationals;
TypeScript string-literal union types are embedded as lists of strings, and
`switch` statements over strings as equality-test chains, matching the
runtime semantics of the erased TS types.

The backend coordination core (`backend/reasoning/mcda.py`,
`backend/reasoning/decision_engine.py`) is not part of the source tree; the
definitions for it below are modelled from the design document, each marked
`Modelled from the spec:` in its doc comment.
-/

/-! ## Presentation-layer types and display utilities (from source) -/

/-- The members, in declared order, of the TypeScript union
`type ActionType = 'escalate' | 'observe' | 'delay' | 'transfer' | 'admit'`
(`types/hospital.ts`). -/
def actionTypeValues : List String :=
  ["escalate", "observe", "delay", "transfer", "admit"]

/-- Result record of `getActionInfo` (`display-utils.ts`). -/
structure ActionInfo where
  label : String
  color : String
  bgColor : String
deriving DecidableEq

/-- Embeds `getActionInfo` (`display-utils.ts`): a `switch` over the action
string with a `default` branch returning the `Unknown` entry. -/
def getActionInfo (action : String) : ActionInfo :=
  if action = "escalate" then
    { label := "Escalate", color := "text-red-500", bgColor := "bg-red-500/10" }
  else if action = "transfer" then
    { label := "Transfer", color := "text-orange-500", bgColor := "bg-orange-500/10" }
  else if action = "admit" then
    { label := "Admit", color := "text-blue-500", bgColor := "bg-blue-500/10" }
  else if action = "observe" then
    { label := "Observe", color := "text-yellow-500", bgColor := "bg-yellow-500/10" }
  else if action = "delay" then
    { label := "Delay", color := "text-gray-500", bgColor := "bg-gray-500/10" }
  else
    { label := "Unknown", color := "text-gray-500", bgColor := "bg-gray-500/10" }

/-- The members, in declared order, of the TypeScript union
`WebSocketEventType` (`types/hospital.ts`). -/
def webSocketEventTypes : List String :=
  ["patient.arrival", "vitals.update", "risk_monitor.risk_calculated",
   "capacity_intelligence.capacity_updated", "escalation_decision.decision_made",
   "simulation.tick"]

/-- Which branch of `handleWebSocketMessage` (`AppLayout.tsx`) fires for a
message: one tag per non-default `case`, plus the `default` branch. -/
inductive HandlerBranch where
  | invalidatePatients
  | updatePatientRisk
  | invalidateCapacity
  | addDecision
  | defaultBranch
deriving DecidableEq

/-- Embeds the `switch (event.type)` dispatch of `handleWebSocketMessage`
(`AppLayout.tsx`): which branch handles each event type string. -/
def handleWebSocketMessage (t : String) : HandlerBranch :=
  if t = "patient.arrival" then .invalidatePatients
  else if t = "vitals.update" then .invalidatePatients
  else if t = "risk_monitor.risk_calculated" then .updatePatientRisk
  else if t = "capacity_intelligence.capacity_updated" then .invalidateCapacity
  else if t = "escalation_decision.decision_made" then .addDecision
  else .defaultBranch

/-- The `Decision` record of `types/hospital.ts` (fields the decision feed
stores; the optional `patient_name` is embedded as an `Option`). -/
structure Decision where
  decision_id : String
  patient_id : String
  patient_name : Option String
  agent_name : String
  action : String
  confidence : ℚ
  reasoning : String
  timestamp : String
deriving DecidableEq

/-- Embeds `addDecision` (`useDecisions.ts`):
`[decision, ...old].slice(0, 50)`. -/
def addDecision (d : Decision) (old : List Decision) : List Decision :=
  (d :: old).take 50

namespace useCapacity

/-- Embeds `getCapacityColor` (`useCapacity.ts`): the occupancy band name. -/
def getCapacityColor (occupancyRate : ℚ) : String :=
  if occupancyRate < 1/2 then "available"
  else if occupancyRate < 7/10 then "moderate"
  else "critical"

end useCapacity

namespace CapacityCard

/-- Embeds the local `getCapacityColor` (`CapacityCard.tsx`). -/
def getCapacityColor (occupancyRate : ℚ) : String :=
  if occupancyRate < 1/2 then "text-capacity-available"
  else if occupancyRate < 7/10 then "text-capacity-moderate"
  else "text-capacity-critical"

/-- Embeds the local `getProgressColor` (`CapacityCard.tsx`). -/
def getProgressColor (occupancyRate : ℚ) : String :=
  if occupancyRate < 1/2 then "bg-capacity-available"
  else if occupancyRate < 7/10 then "bg-capacity-moderate"
  else "bg-capacity-critical"

end CapacityCard

/-- Result type of `getVitalStatus` (`display-utils.ts`). -/
inductive VitalStatus where
  | normal
  | warning
  | critical
deriving DecidableEq

/-- The five vital names recognized by `getVitalStatus` (`display-utils.ts`),
in the order of its `case` labels. -/
def recognizedVitals : List String :=
  ["heart_rate", "oxygen_saturation", "blood_pressure_systolic",
   "respiratory_rate", "temperature"]

/-- Embeds `getVitalStatus` (`display-utils.ts`): per-vital threshold checks,
critical guard first, then warning, else normal; unknown vitals are normal. -/
def getVitalStatus (vital : String) (value : ℚ) : VitalStatus :=
  if vital = "heart_rate" then
    if value < 40 ∨ 150 < value then .critical
    else if value < 50 ∨ 120 < value then .warning
    else .normal
  else if vital = "oxygen_saturation" then
    if value < 88 then .critical
    else if value < 92 then .warning
    else .normal
  else if vital = "blood_pressure_systolic" then
    if value < 80 ∨ 200 < value then .critical
    else if value < 90 ∨ 160 < value then .warning
    else .normal
  else if vital = "respiratory_rate" then
    if value < 8 ∨ 35 < value then .critical
    else if value < 10 ∨ 25 < value then .warning
    else .normal
  else if vital = "temperature" then
    if value < 35 ∨ 40 < value then .critical
    else if value < 36 ∨ 38 < value then .warning
    else .normal
  else
    .normal

/-- The critical-guard condition of each `case` of `getVitalStatus`
(`display-utils.ts`), as a Boolean predicate; `false` for unknown vitals. -/
def vitalCriticalCond (vital : String) (value : ℚ) : Bool :=
  if vital = "heart_rate" then decide (value < 40) || decide (150 < value)
  else if vital = "oxygen_saturation" then decide (value < 88)
  else if vital = "blood_pressure_systolic" then decide (value < 80) || decide (200 < value)
  else if vital = "respiratory_rate" then decide (value < 8) || decide (35 < value)
  else if vital = "temperature" then decide (value < 35) || decide (40 < value)
  else false

/-- The warning-guard condition of each `case` of `getVitalStatus`
(`display-utils.ts`), as a Boolean predicate; `false` for unknown vitals. -/
def vitalWarningCond (vital : String) (value : ℚ) : Bool :=
  if vital = "heart_rate" then decide (value < 50) || decide (120 < value)
  else if vital = "oxygen_saturation" then decide (value < 92)
  else if vital = "blood_pressure_systolic" then decide (value < 90) || decide (160 < value)
  else if vital = "respiratory_rate" then decide (value < 10) || decide (25 < value)
  else if vital = "temperature" then decide (value < 36) || decide (38 < value)
  else false

/-! ## Coordination core (modelled from the spec) -/

/-- The risk trajectory union `Trajectory` (`types/hospital.ts`), shared with
the design document's RiskAssessment entity. -/
inductive Trajectory where
  | improving
  | stable
  | deteriorating
  | critical
deriving DecidableEq

/-- Modelled from the spec: the EscalationDecision action set of the design
document (the backend `escalation_decision` models are not in the source
tree): action is one of escalate, observe, delay, reprioritize, transfer,
admit (the last rendered here by the constructor `admission`). -/
inductive SpecAction where
  | escalate
  | observe
  | delay
  | reprioritize
  | transfer
  | admission
deriving DecidableEq

/-- Modelled from the spec: the MCDA weight vector over the four named
criteria Safety, Urgency, Capacity, Impact (`backend/reasoning/mcda.py` is
not in the source tree). -/
structure MCDAWeights where
  safety : ℚ
  urgency : ℚ
  capacity : ℚ
  impact : ℚ
deriving DecidableEq

/-- Modelled from the spec: the per-criterion normalized scores of one MCDA
candidate, each expected in `[0,1]` (`backend/reasoning/mcda.py` is not in
the source tree); mirrors the four `*_score` fields of the frontend
`MCDAScores` record. -/
structure MCDACriterionScores where
  safety : ℚ
  urgency : ℚ
  capacity : ℚ
  impact : ℚ
deriving DecidableEq

/-- Modelled from the spec: the MCDA output
`weightedTotal = Σ weight_i * score_i` over the four criteria
(`backend/reasoning/mcda.py` is not in the source tree). -/
def weightedTotal (w : MCDAWeights) (s : MCDACriterionScores) : ℚ :=
  w.safety * s.safety + w.urgency * s.urgency +
    w.capacity * s.capacity + w.impact * s.impact

/-- Modelled from the spec: an MCDA ranking candidate as the ranking sees it:
its weighted total, its Urgency criterion score, and its arrival time
(`backend/reasoning/mcda.py` is not in the source tree).  Two candidates
presenting identical ranking keys are indistinguishable to the ranking. -/
structure Candidate where
  weightedTotal : ℚ
  urgency : ℚ
  arrival : ℚ
deriving DecidableEq

/-- Modelled from the spec: the MCDA ranking order
(`backend/reasoning/mcda.py` is not in the source tree): `a` ranks no later
than `b` when `a` has the larger weighted total, or totals tie and `a` has
the larger Urgency score, or both tie and `a` arrived no later. -/
def rankLE (a b : Candidate) : Prop :=
  b.weightedTotal < a.weightedTotal ∨
    (a.weightedTotal = b.weightedTotal ∧
      (b.urgency < a.urgency ∨ (a.urgency = b.urgency ∧ a.arrival ≤ b.arrival)))

instance : DecidableRel rankLE := fun a b => by
  unfold rankLE; infer_instance

instance : IsTotal Candidate rankLE where
  total a b := by
    unfold rankLE
    rcases lt_trichotomy a.weightedTotal b.weightedTotal with h | h | h
    · exact Or.inr (Or.inl h)
    · rcases lt_trichotomy a.urgency b.urgency with h' | h' | h'
      · exact Or.inr (Or.inr ⟨h.symm, Or.inl h'⟩)
      · rcases le_total a.arrival b.arrival with h'' | h''
        · exact Or.inl (Or.inr ⟨h, Or.inr ⟨h', h''⟩⟩)
        · exact Or.inr (Or.inr ⟨h.symm, Or.inr ⟨h'.symm, h''⟩⟩)
      · exact Or.inl (Or.inr ⟨h, Or.inl h'⟩)
    · exact Or.inl (Or.inl h)

instance : IsTrans Candidate rankLE where
  trans a b c hab hbc := by
    unfold rankLE at *
    rcases hab with h1 | ⟨h1, h1'⟩ <;> rcases hbc with h2 | ⟨h2, h2'⟩
    · exact Or.inl (by linarith)
    · exact Or.inl (by linarith)
    · exact Or.inl (by linarith)
    · refine Or.inr ⟨by linarith, ?_⟩
      rcases h1' with h3 | ⟨h3, h3'⟩ <;> rcases h2' with h4 | ⟨h4, h4'⟩
      · exact Or.inl (by linarith)
      · exact Or.inl (by linarith)
      · exact Or.inl (by linarith)
      · exact Or.inr ⟨by linarith, by linarith⟩

instance : IsAntisymm Candidate rankLE where
  antisymm a b hab hba := by
    unfold rankLE at *
    rcases hab with h1 | ⟨h1, h1'⟩ <;> rcases hba with h2 | ⟨h2, h2'⟩
    · exact False.elim (by linarith)
    · exact False.elim (by linarith)
    · exact False.elim (by linarith)
    · rcases h1' with h3 | ⟨h3, h3'⟩ <;> rcases h2' with h4 | ⟨h4, h4'⟩
      · exact False.elim (by linarith)
      · exact False.elim (by linarith)
      · exact False.elim (by linarith)
      · cases a
        cases b
        simp only [Candidate.mk.injEq]
        exact ⟨h1, h3, le_antisymm h3' h4'⟩

/-- Modelled from the spec: ranking a candidate set is sorting it by
`rankLE` (`backend/reasoning/mcda.py` is not in the source tree). -/
def rankCandidates (l : List Candidate) : List Candidate :=
  l.insertionSort rankLE

/-- Modelled from the spec: the base safe-to-wait level of each non-critical
risk trajectory (`backend/reasoning/decision_engine.py` is not in the source
tree); the design document fixes no constants, only monotonicity. -/
def trajectoryBase : Trajectory → ℚ
  | .improving => 9/10
  | .stable => 7/10
  | .deteriorating => 2/5
  | .critical => 0

/-- Modelled from the spec: the Decision Engine safe-to-wait probability
(`backend/reasoning/decision_engine.py` is not in the source tree): 0 for a
critical trajectory regardless of capacity; otherwise the trajectory base
scaled by the capacity score (capacity scores live in `[0,100]`). -/
def safeToWait (traj : Trajectory) (capacityScore : ℚ) : ℚ :=
  match traj with
  | .critical => 0
  | t => trajectoryBase t * (capacityScore / 100)

/-- Modelled from the spec: the Decision Engine final-action policy
(`backend/reasoning/decision_engine.py` is not in the source tree): if
safe-to-wait is below the configured threshold the action is forced to
escalate, otherwise the top-ranked MCDA action stands. -/
def finalAction (threshold : ℚ) (traj : Trajectory) (capacityScore : ℚ)
    (mcdaTop : SpecAction) : SpecAction :=
  if safeToWait traj capacityScore < threshold then .escalate else mcdaTop

/-- Modelled from the spec: the final decision's confidence
(`backend/reasoning/decision_engine.py` is not in the source tree): the
minimum over the confidences of the contributing assessments, given as a
first confidence and the list of the remaining ones. -/
def finalConfidence (c : ℚ) (cs : List ℚ) : ℚ :=
  cs.foldl min c

/-! ## Helper lemmas -/

theorem foldlMin_le_init : ∀ (cs : List ℚ) (c : ℚ), cs.foldl min c ≤ c
  | [], c => le_refl c
  | x :: xs, c => le_trans (foldlMin_le_init xs (min c x)) (min_le_left c x)

theorem foldlMin_le_mem : ∀ (cs : List ℚ) (c x : ℚ), x ∈ cs → cs.foldl min c ≤ x := by
  intro cs
  induction cs with
  | nil => intro c x hx; cases hx
  | cons y ys ih =>
    intro c x hx
    rcases List.mem_cons.mp hx with rfl | hx
    · exact le_trans (foldlMin_le_init ys (min c x)) (min_le_right c x)
    · exact ih (min c y) x hx

theorem foldlMin_attained : ∀ (cs : List ℚ) (c : ℚ), cs.foldl min c = c ∨ cs.foldl min c ∈ cs := by
  intro cs
  induction cs with
  | nil => intro c; exact Or.inl rfl
  | cons y ys ih =>
    intro c
    rcases ih (min c y) with h | h
    · rcases min_choice c y with hc | hc
      · exact Or.inl (by rw [List.foldl_cons, h, hc])
      · exact Or.inr (by rw [List.foldl_cons, h, hc]; exact List.mem_cons_self y ys)
    · exact Or.inr (List.mem_cons_of_mem y h)

/-! ## Claim theorems -/

/-- Claim C1, counterexample: the claim says all six spec actions (including
reprioritize) are representable at the presentation interface; but
reprioritize is not a member of the frontend `ActionType` union and
`getActionInfo` sends it to the default `Unknown` entry. -/
theorem claim_C1_counterexample :
    ¬ ("reprioritize" ∈ actionTypeValues) ∧
      (getActionInfo ("reprioritize")).label = "Unknown" := by
  decide

/-- Claim C1 (amended): the representable decision actions at the
presentation interface are exactly the five values escalate, observe, delay,
transfer, admit; each of these five is a member of the frontend `ActionType`
union and is mapped by `getActionInfo` to a non-default (non-`Unknown`)
display entry. -/
theorem claim_C1 :
    (∀ a ∈ ["escalate", "observe", "delay", "transfer", "admit"],
        a ∈ actionTypeValues ∧ (getActionInfo a).label ≠ "Unknown") ∧
    ∀ a ∈ actionTypeValues, a ∈ ["escalate", "observe", "delay", "transfer", "admit"] := by
  decide

/-- Claim C1, witness: the escalate action is a member of `ActionType` and
gets a non-default display entry. -/
theorem claim_C1_witness :
    "escalate" ∈ actionTypeValues ∧ (getActionInfo ("escalate")).label ≠ "Unknown" :=
  claim_C1.1 ("escalate") (by decide)

/-- Claim C2, counterexample: the claim says all four published topics are
members of the frontend `WebSocketEventType` union and handled by non-default
branches; but `flow_orchestrator.recommendation_ready` is not a member of the
union and falls to the default branch of `handleWebSocketMessage`. -/
theorem claim_C2_counterexample :
    ¬ ("flow_orchestrator.recommendation_ready" ∈ webSocketEventTypes) ∧
      handleWebSocketMessage ("flow_orchestrator.recommendation_ready") =
        HandlerBranch.defaultBranch := by
  decide

/-- Claim C2 (amended): of the four published topics, the three
`risk_monitor.risk_calculated`, `capacity_intelligence.capacity_updated`,
and `escalation_decision.decision_made` are each members of the frontend
`WebSocketEventType` union and handled by a non-default branch of
`handleWebSocketMessage`. -/
theorem claim_C2 :
    ∀ t ∈ ["risk_monitor.risk_calculated", "capacity_intelligence.capacity_updated",
           "escalation_decision.decision_made"],
      t ∈ webSocketEventTypes ∧ handleWebSocketMessage t ≠ HandlerBranch.defaultBranch := by
  decide

/-- Claim C2, witness: the risk-calculated topic is a member of
`WebSocketEventType` and handled by a non-default branch. -/
theorem claim_C2_witness :
    "risk_monitor.risk_calculated" ∈ webSocketEventTypes ∧
      handleWebSocketMessage ("risk_monitor.risk_calculated") ≠ HandlerBranch.defaultBranch :=
  claim_C2 ("risk_monitor.risk_calculated") (by decide)

/-- Claim C3: for every weight vector of the four criteria with non-negative
weights summing to 1 and every criterion score vector with each score in
`[0,1]`, the MCDA `weightedTotal` lies in `[0,1]`. -/
theorem claim_C3 (w : MCDAWeights) (s : MCDACriterionScores)
    (hw1 : 0 ≤ w.safety) (hw2 : 0 ≤ w.urgency) (hw3 : 0 ≤ w.capacity) (hw4 : 0 ≤ w.impact)
    (hsum : w.safety + w.urgency + w.capacity + w.impact = 1)
    (hs1 : 0 ≤ s.safety) (hs1' : s.safety ≤ 1)
    (hs2 : 0 ≤ s.urgency) (hs2' : s.urgency ≤ 1)
    (hs3 : 0 ≤ s.capacity) (hs3' : s.capacity ≤ 1)
    (hs4 : 0 ≤ s.impact) (hs4' : s.impact ≤ 1) :
    0 ≤ weightedTotal w s ∧ weightedTotal w s ≤ 1 := by
  unfold weightedTotal
  constructor
  · have t1 := mul_nonneg hw1 hs1
    have t2 := mul_nonneg hw2 hs2
    have t3 := mul_nonneg hw3 hs3
    have t4 := mul_nonneg hw4 hs4
    linarith
  · have t1 := mul_le_of_le_one_right hw1 hs1'
    have t2 := mul_le_of_le_one_right hw2 hs2'
    have t3 := mul_le_of_le_one_right hw3 hs3'
    have t4 := mul_le_of_le_one_right hw4 hs4'
    linarith

/-- Claim C3, witness: equal weights one quarter each and scores
`(1/2, 1, 0, 3/4)` give a weighted total in `[0,1]`. -/
theorem claim_C3_witness :
    0 ≤ weightedTotal ⟨1/4, 1/4, 1/4, 1/4⟩ ⟨1/2, 1, 0, 3/4⟩ ∧
      weightedTotal ⟨1/4, 1/4, 1/4, 1/4⟩ ⟨1/2, 1, 0, 3/4⟩ ≤ 1 :=
  claim_C3 ⟨1/4, 1/4, 1/4, 1/4⟩ ⟨1/2, 1, 0, 3/4⟩
    (by norm_num) (by norm_num) (by norm_num) (by norm_num) (by norm_num)
    (by norm_num) (by norm_num) (by norm_num) (by norm_num)
    (by norm_num) (by norm_num) (by norm_num) (by norm_num)

/-- Claim C4: candidates with equal weighted totals are ranked by Urgency
(higher first); if Urgency also ties, by arrival time (earlier first); and
ranking a candidate set is independent of the evaluation/insertion order:
any two permutations of the same candidate set rank to the same list. -/
theorem claim_C4 :
    (∀ a b : Candidate, a.weightedTotal = b.weightedTotal → b.urgency < a.urgency →
        rankLE a b ∧ ¬ rankLE b a) ∧
    (∀ a b : Candidate, a.weightedTotal = b.weightedTotal → a.urgency = b.urgency →
        a.arrival < b.arrival → rankLE a b ∧ ¬ rankLE b a) ∧
    ∀ l₁ l₂ : List Candidate, l₁.Perm l₂ → rankCandidates l₁ = rankCandidates l₂ := by
  refine ⟨?_, ?_, ?_⟩
  · intro a b h1 h2
    constructor
    · exact Or.inr ⟨h1, Or.inl h2⟩
    · unfold rankLE
      rintro (h | ⟨h, h' | ⟨h', h''⟩⟩) <;> linarith
  · intro a b h1 h2 h3
    constructor
    · exact Or.inr ⟨h1, Or.inr ⟨h2, le_of_lt h3⟩⟩
    · unfold rankLE
      rintro (h | ⟨h, h' | ⟨h', h''⟩⟩) <;> linarith
  · intro l₁ l₂ hp
    exact List.eq_of_perm_of_sorted
      (((List.perm_insertionSort rankLE l₁).trans hp).trans
        (List.perm_insertionSort rankLE l₂).symm)
      (List.sorted_insertionSort rankLE l₁) (List.sorted_insertionSort rankLE l₂)

/-- Claim C4, witness: with equal weighted totals the higher-Urgency
candidate ranks strictly first, and ranking a two-candidate set gives the
same list for both insertion orders. -/
theorem claim_C4_witness :
    (rankLE ⟨1, 2, 5⟩ ⟨1, 1, 3⟩ ∧ ¬ rankLE ⟨1, 1, 3⟩ ⟨1, 2, 5⟩) ∧
      rankCandidates [⟨1, 1, 3⟩, ⟨1, 2, 5⟩] = rankCandidates [⟨1, 2, 5⟩, ⟨1, 1, 3⟩] :=
  ⟨claim_C4.1 ⟨1, 2, 5⟩ ⟨1, 1, 3⟩ rfl (by norm_num),
   claim_C4.2.2 [⟨1, 1, 3⟩, ⟨1, 2, 5⟩] [⟨1, 2, 5⟩, ⟨1, 1, 3⟩] (List.Perm.swap _ _ _)⟩

/-- Claim C5: the safe-to-wait value is 0 whenever the risk trajectory is
critical, for every capacity score. -/
theorem claim_C5 (capacityScore : ℚ) :
    safeToWait Trajectory.critical capacityScore = 0 := rfl

/-- Claim C6: whenever the computed safe-to-wait value is below the
configured threshold the final action is escalate regardless of the
top-ranked MCDA action; otherwise the top-ranked MCDA action stands. -/
theorem claim_C6 (threshold : ℚ) (traj : Trajectory) (capacityScore : ℚ)
    (mcdaTop : SpecAction) :
    (safeToWait traj capacityScore < threshold →
        finalAction threshold traj capacityScore mcdaTop = SpecAction.escalate) ∧
    (threshold ≤ safeToWait traj capacityScore →
        finalAction threshold traj capacityScore mcdaTop = mcdaTop) := by
  constructor
  · intro h
    unfold finalAction
    rw [if_pos h]
  · intro h
    unfold finalAction
    rw [if_neg (not_lt.mpr h)]

/-- Claim C6, witness: with threshold 3/10, a critical trajectory at
capacity 85 forces escalate over an observe MCDA ranking, while a stable
trajectory at the same capacity leaves observe standing. -/
theorem claim_C6_witness :
    finalAction (3/10) Trajectory.critical 85 SpecAction.observe = SpecAction.escalate ∧
      finalAction (3/10) Trajectory.stable 85 SpecAction.observe = SpecAction.observe :=
  ⟨(claim_C6 (3/10) Trajectory.critical 85 SpecAction.observe).1
      (by norm_num [safeToWait]),
   (claim_C6 (3/10) Trajectory.stable 85 SpecAction.observe).2
      (by norm_num [safeToWait, trajectoryBase])⟩

/-- Claim C7: the final decision's confidence is the minimum of the
confidences of all contributing assessments: it is a lower bound on every
contributing confidence and is itself one of them. -/
theorem claim_C7 (c : ℚ) (cs : List ℚ) :
    (finalConfidence c cs ≤ c ∧ ∀ x ∈ cs, finalConfidence c cs ≤ x) ∧
      (finalConfidence c cs = c ∨ finalConfidence c cs ∈ cs) :=
  ⟨⟨foldlMin_le_init cs c, fun x hx => foldlMin_le_mem cs c x hx⟩, foldlMin_attained cs c⟩

/-- Claim C7, witness: combining confidences 1/2, 1/3 and 3/4, the final
confidence is bounded by the contributing confidence 3/4. -/
theorem claim_C7_witness :
    finalConfidence (1/2) [1/3, 3/4] ≤ 3/4 :=
  (claim_C7 (1/2) [1/3, 3/4]).1.2 (3/4) (by norm_num)

/-- Claim C8: `addDecision` returns a list whose first element is the new
decision, whose remaining elements are the first 49 old decisions in their
original order, and whose length is `min (oldLength + 1) 50`. -/
theorem claim_C8 (d : Decision) (old : List Decision) :
    (addDecision d old).head? = some d ∧
    (addDecision d old).tail = old.take 49 ∧
    (addDecision d old).length = min (old.length + 1) 50 := by
  refine ⟨rfl, rfl, ?_⟩
  unfold addDecision
  rw [List.length_take, List.length_cons, min_comm]

/-- Claim C9: the three capacity classifiers agree on the same band with
cut-points 0.5 and 0.7: `CapacityCard.getCapacityColor` is the
`text-capacity-` prefix applied to `useCapacity.getCapacityColor`, and
`CapacityCard.getProgressColor` is the `bg-capacity-` prefix applied to the
same band name. -/
theorem claim_C9 (r : ℚ) :
    CapacityCard.getCapacityColor r = "text-capacity-" ++ useCapacity.getCapacityColor r ∧
    CapacityCard.getProgressColor r = "bg-capacity-" ++ useCapacity.getCapacityColor r := by
  unfold CapacityCard.getCapacityColor CapacityCard.getProgressColor useCapacity.getCapacityColor
  constructor <;> split_ifs <;> rfl

/-- Claim C10: for each recognized vital, every value meeting the critical
guard of `getVitalStatus` also meets its warning guard (the severity bands
are nested, so the critical guard ordered first is the severest applicable
band), the critical guard suffices for a critical result, and every
unrecognized vital name yields normal. -/
theorem claim_C10 :
    (∀ v ∈ recognizedVitals, ∀ x : ℚ,
        vitalCriticalCond v x = true → vitalWarningCond v x = true) ∧
    (∀ v ∈ recognizedVitals, ∀ x : ℚ,
        vitalCriticalCond v x = true → getVitalStatus v x = VitalStatus.critical) ∧
    (∀ v : String, v ∉ recognizedVitals → ∀ x : ℚ, getVitalStatus v x = VitalStatus.normal) := by
  refine ⟨?_, ?_, ?_⟩
  · intro v hv x h
    simp only [recognizedVitals, List.mem_cons, List.mem_singleton,
      List.not_mem_nil, or_false] at hv
    rcases hv with rfl | rfl | rfl | rfl | rfl <;>
      simp only [vitalCriticalCond, vitalWarningCond, String.reduceEq, reduceIte,
        Bool.or_eq_true, decide_eq_true_eq] at h ⊢
    · rcases h with h | h
      · exact Or.inl (by linarith)
      · exact Or.inr (by linarith)
    · linarith
    · rcases h with h | h
      · exact Or.inl (by linarith)
      · exact Or.inr (by linarith)
    · rcases h with h | h
      · exact Or.inl (by linarith)
      · exact Or.inr (by linarith)
    · rcases h with h | h
      · exact Or.inl (by linarith)
      · exact Or.inr (by linarith)
  · intro v hv x h
    simp only [recognizedVitals, List.mem_cons, List.mem_singleton,
      List.not_mem_nil, or_false] at hv
    rcases hv with rfl | rfl | rfl | rfl | rfl <;>
      simp only [vitalCriticalCond, String.reduceEq, reduceIte, Bool.or_eq_true,
        decide_eq_true_eq] at h <;>
      simp only [getVitalStatus, String.reduceEq, reduceIte] <;>
      rw [if_pos h]
  · intro v hv x
    have h1 : v ≠ "heart_rate" := by rintro rfl; exact hv (by decide)
    have h2 : v ≠ "oxygen_saturation" := by rintro rfl; exact hv (by decide)
    have h3 : v ≠ "blood_pressure_systolic" := by rintro rfl; exact hv (by decide)
    have h4 : v ≠ "respiratory_rate" := by rintro rfl; exact hv (by decide)
    have h5 : v ≠ "temperature" := by rintro rfl; exact hv (by decide)
    simp only [getVitalStatus, if_neg h1, if_neg h2, if_neg h3, if_neg h4, if_neg h5]

/-- Claim C10, witness: a heart rate of 30 meets both the critical and
warning guards and classifies critical, while an unrecognized vital name
classifies normal. -/
theorem claim_C10_witness :
    vitalWarningCond ("heart_rate") 30 = true ∧
      getVitalStatus ("heart_rate") 30 = VitalStatus.critical ∧
      getVitalStatus ("consciousness") 30 = VitalStatus.normal :=
  ⟨claim_C10.1 ("heart_rate") (by decide) 30 (by decide),
   claim_C10.2.1 ("heart_rate") (by decide) 30 (by decide),
   claim_C10.2.2 ("consciousness") (by decide) 30⟩
